import Mathlib

/-!
Verification of the goBookL-brary service (Go/Fiber/GORM backend).

Shallow embedding of the book service (cache-aside CRUD handlers in
`apps/backend/book/handler.go` over the GORM repository functions), the
auth service (`RegisterUser` / `AuthenticateUser` / `GenerateJWT` with the
Fiber handlers in `apps/backend/auth/handler.go`), and the Redis cache
wrapper, followed by theorems settling the specification claims.

Modelling conventions:
 - The PostgreSQL store behind GORM is a `DBState`: a list of rows plus the
   autoincrement counter.  GORM soft delete (`gorm.DeletedAt`) is a Boolean
   `deleted` flag; `First`/`Find` scope to non-deleted rows.
 - A possible store outage is the Boolean `fault` parameter on each
   repository function: when set, the call returns the connection error,
   exactly as a failing `db.DB....Error` would.
 - The Redis collaborator is an association list of key/value pairs plus an
   `up` flag: when `up` is false every cache call errors, which in the
   handlers (`err != nil`) is indistinguishable from a miss; `Set` and
   `Delete` failures leave the cache unchanged and are ignored by the
   handlers, as in the Go code where their return values are discarded.
 - Go zero values: `""` for strings, `0` for ints; JSON fields absent from
   a request body parse to their zero value, so "absent" and "zero-valued"
   coincide after `BodyParser`, as they do in the Go structs.
 - bcrypt is external: hashing is an arbitrary function parameter `bhash`,
   hash comparison an arbitrary `bcompare` predicate.  JWT signing is
   external: the token is modelled as the record of the signing key and the
   claims that `GenerateJWT` puts into it.
-/

namespace GoBookLibrary

/-! ### Book data model — `book/model.go` (GORM variant) -/

/-- The `Book` from the GORM model: surrogate `ID`, required `Title`, `Author`,
`Year` (declared `validate:"required"`), optional `Genre` and unique `ISBN`,
and the `gorm.DeletedAt` soft-delete marker (`deleted`).  Timestamps are
omitted: no claim mentions them. -/
structure Book where
  id : Nat
  title : String
  author : String
  year : Int
  genre : String
  isbn : String
  deleted : Bool
deriving DecidableEq

/-- The relational store: rows of `books` plus the autoincrement counter. -/
structure DBState where
  books : List Book
  nextId : Nat
deriving DecidableEq

/-- GORM call failures seen by the repository layer: the record-not-found
error from `First`, or a connection/query failure. -/
inductive DBErr where
  | recordNotFound
  | connFailure
deriving DecidableEq

/-- The `db.DB.First(&book, id)`: first row with the given primary key among
non-soft-deleted rows, or record-not-found. -/
def dbFirst (s : DBState) (id : Nat) : Option Book :=
  s.books.find? (fun b => b.id == id && !b.deleted)

/-- The `db.DB.Find(&books)`: all non-soft-deleted rows. -/
def dbFind (s : DBState) : List Book :=
  s.books.filter (fun b => !b.deleted)

/-- Character-list matching used to model SQL `ILIKE '%q%'`. -/
def isPrefChars : List Char → List Char → Bool
  | [], _ => true
  | _ :: _, [] => false
  | a :: as, b :: bs => a == b && isPrefChars as bs

/-- The `needle` occurs as a contiguous run inside `hay`. -/
def isSubChars (needle : List Char) : List Char → Bool
  | [] => needle.isEmpty
  | h :: t => isPrefChars needle (h :: t) || isSubChars needle t

/-- Case-insensitive substring containment, modelling `ILIKE '%q%'`. -/
def ilikeContains (hay q : String) : Bool :=
  isSubChars q.toLower.toList hay.toLower.toList

/-- The `WHERE title ILIKE %q% OR author ILIKE %q%` filter of `SearchBooks`,
scoped to non-deleted rows. -/
def dbSearch (s : DBState) (q : String) : List Book :=
  s.books.filter (fun b => !b.deleted && (ilikeContains b.title q || ilikeContains b.author q))

/-! ### Redis cache wrapper — `pkg/cache/cache.go` -/

/-- A cached value: the JSON snapshot of a single `Book` (`book:<id>` keys)
or of a `[]Book` (`books:all` / `books:search:<q>` keys). -/
inductive CVal where
  | one (b : Book)
  | many (bs : List Book)
deriving DecidableEq

/-- The Redis keyspace, newest binding first. -/
abbrev Cache := List (String × CVal)

/-- Raw key lookup in the cache state. -/
def cacheLookup (c : Cache) (k : String) : Option CVal :=
  (c.find? (fun e => e.1 == k)).map (fun e => e.2)

/-- The `RedisCache.Get`: when the collaborator is down every call errors; a
missing key is also an error ("key not found").  Both come back to the
caller as `err != nil`, i.e. `none` here. -/
def cacheGet (up : Bool) (c : Cache) (k : String) : Option CVal :=
  if up then cacheLookup c k else none

/-- The `Cache.Get(key, &book)`: a stored `[]Book` snapshot fails to unmarshal
into a `Book`, which is again `err != nil`. -/
def cacheGetBook (up : Bool) (c : Cache) (k : String) : Option Book :=
  match cacheGet up c k with
  | some (.one b) => some b
  | _ => none

/-- The `Cache.Get(key, &books)` for list-valued keys. -/
def cacheGetBooks (up : Bool) (c : Cache) (k : String) : Option (List Book) :=
  match cacheGet up c k with
  | some (.many bs) => some bs
  | _ => none

/-- The `RedisCache.Set`: overwrite the key; a failed set leaves the store
unchanged (the handlers discard its error). TTL is not modelled — no claim
depends on expiry. -/
def cacheSet (up : Bool) (c : Cache) (k : String) (v : CVal) : Cache :=
  if up then (k, v) :: c else c

/-- The `RedisCache.Delete` of one key; a failed delete leaves the store
unchanged (the handlers discard its error). -/
def cacheDeleteKey (up : Bool) (c : Cache) (k : String) : Cache :=
  if up then c.filter (fun e => e.1 != k) else c

/-! ### Book repository — GORM `book.go` (`GetAllBooks` … `SearchBooks`) -/

/-- The `GetAllBooks`. -/
def GetAllBooks (fault : Bool) (s : DBState) : Except DBErr (List Book) :=
  if fault then .error .connFailure else .ok (dbFind s)

/-- The `SearchBooks`. -/
def SearchBooks (fault : Bool) (s : DBState) (q : String) : Except DBErr (List Book) :=
  if fault then .error .connFailure else .ok (dbSearch s q)

/-- The `GetBookByID`: `First` errors with record-not-found when no live row has
the id, and with the connection error on an outage. -/
def GetBookByID (fault : Bool) (s : DBState) (id : Nat) : Except DBErr Book :=
  if fault then .error .connFailure
  else
    match dbFirst s id with
    | some b => .ok b
    | none => .error .recordNotFound

/-- The `CreateBook`: `db.DB.Create(book)` inserts the row, drawing the
autoincrement id when the draft's id is zero (a nonzero id from the payload
is used as-is by GORM).  No field validation happens here. -/
def CreateBook (fault : Bool) (s : DBState) (draft : Book) : Except DBErr (DBState × Book) :=
  if fault then .error .connFailure
  else
    let assigned := if draft.id == 0 then s.nextId else draft.id
    let b := { draft with id := assigned }
    .ok ({ books := s.books ++ [b], nextId := max s.nextId (assigned + 1) }, b)

/-- GORM `Updates` with a struct argument: only non-zero-valued fields of
the payload are written; the primary key and soft-delete marker are never
taken from the payload. -/
def mergeNonZero (stored payload : Book) : Book :=
  { id := stored.id
    title := if payload.title == "" then stored.title else payload.title
    author := if payload.author == "" then stored.author else payload.author
    year := if payload.year == 0 then stored.year else payload.year
    genre := if payload.genre == "" then stored.genre else payload.genre
    isbn := if payload.isbn == "" then stored.isbn else payload.isbn
    deleted := stored.deleted }

/-- The `UpdateBook`: `First` the stored row (record-not-found is terminal),
then `Model(&book).Updates(updatedBook)` writes the merged row back under
the same primary key (soft-delete scoped, as GORM adds
`deleted_at IS NULL`). -/
def UpdateBook (fault : Bool) (s : DBState) (id : Nat) (payload : Book) :
    Except DBErr (DBState × Book) :=
  if fault then .error .connFailure
  else
    match dbFirst s id with
    | none => .error .recordNotFound
    | some stored =>
      let merged := mergeNonZero stored payload
      .ok ({ s with
              books := s.books.map (fun b => if b.id == id && !b.deleted then merged else b) },
           merged)

/-- The `DeleteBook`: `db.DB.Delete(&Book{}, id)` marks matching live rows
deleted.  GORM reports no error when zero rows match — the function returns
success for an absent id. -/
def DeleteBook (fault : Bool) (s : DBState) (id : Nat) : Except DBErr DBState :=
  if fault then .error .connFailure
  else
    .ok { s with
          books := s.books.map
            (fun b => if b.id == id && !b.deleted then { b with deleted := true } else b) }

/-! ### Book HTTP handlers — `book/handler.go` -/

/-- A response body: a JSON book list, a single book, an error object, or
the empty 204 body. -/
inductive Body where
  | books (bs : List Book)
  | book (b : Book)
  | errMsg (msg : String)
  | empty
deriving DecidableEq

/-- Outcome of one handler call: HTTP status, response body, and the store
and cache states after the call. -/
structure HResult where
  status : Nat
  body : Body
  db : DBState
  cache : Cache
deriving DecidableEq

/-- The list cache key: `books:all`, or `books:search:<q>` under a search. -/
def listCacheKey (search : String) : String :=
  if search == "" then "books:all" else "books:search:" ++ search

/-- The single-book cache key `book:<id>`. -/
def bookCacheKey (id : Nat) : String :=
  "book:" ++ toString id

/-- The `GetBooks`: cache-aside list.  A cache hit returns immediately; any
cache error or miss falls through to the store; a store error is a 500; on
success the result is cached (set failure ignored) and returned. -/
def GetBooks (up fault : Bool) (db : DBState) (c : Cache) (search : String) : HResult :=
  let key := listCacheKey search
  match cacheGetBooks up c key with
  | some bs => ⟨200, .books bs, db, c⟩
  | none =>
    match (if search == "" then GetAllBooks fault db else SearchBooks fault db search) with
    | .error _ => ⟨500, .errMsg "Failed to fetch books", db, c⟩
    | .ok bs => ⟨200, .books bs, db, cacheSet up c key (.many bs)⟩

/-- The `GetBook`: cache-aside single read.  A cache hit returns immediately;
otherwise `GetBookByID` is called and ANY error from it — record-not-found
or store failure alike — is answered with `404 Book not found`; on success
the book is cached (set failure ignored) and returned. -/
def GetBook (up fault : Bool) (db : DBState) (c : Cache) (id : Nat) : HResult :=
  let key := bookCacheKey id
  match cacheGetBook up c key with
  | some b => ⟨200, .book b, db, c⟩
  | none =>
    match GetBookByID fault db id with
    | .error _ => ⟨404, .errMsg "Book not found", db, c⟩
    | .ok b => ⟨200, .book b, db, cacheSet up c key (.one b)⟩

/-- The `AddBookHandler`: parse (assumed successful — the draft is the parsed
body), `CreateBook`, 500 on store error; on success invalidate `books:all`
only and answer 201 with the persisted record.  No required-field check is
performed anywhere on this path. -/
def AddBookHandler (up fault : Bool) (db : DBState) (c : Cache) (draft : Book) : HResult :=
  match CreateBook fault db draft with
  | .error _ => ⟨500, .errMsg "Failed to create book", db, c⟩
  | .ok (db2, b) => ⟨201, .book b, db2, cacheDeleteKey up c "books:all"⟩

/-- The `UpdateBookHandler`: parse, `UpdateBook`, 404 on its error; on success
invalidate `books:all` and `book:<id>` and answer 200 with the merged
record. -/
def UpdateBookHandler (up fault : Bool) (db : DBState) (c : Cache) (id : Nat) (payload : Book) :
    HResult :=
  match UpdateBook fault db id payload with
  | .error _ => ⟨404, .errMsg "Book not found", db, c⟩
  | .ok (db2, b) =>
    ⟨200, .book b, db2,
      cacheDeleteKey up (cacheDeleteKey up c "books:all") (bookCacheKey id)⟩

/-- The `DeleteBookHandler`: `DeleteBook`, 404 on its error; on success
invalidate `books:all` and `book:<id>` and answer 204. -/
def DeleteBookHandler (up fault : Bool) (db : DBState) (c : Cache) (id : Nat) : HResult :=
  match DeleteBook fault db id with
  | .error _ => ⟨404, .errMsg "Book not found", db, c⟩
  | .ok db2 =>
    ⟨204, .empty, db2,
      cacheDeleteKey up (cacheDeleteKey up c "books:all") (bookCacheKey id)⟩

/-- The validation the spec claims for `create`: title, author, year
present / non-zero (the `validate:"required"` tags on the `Book` model). -/
def hasRequiredBookFields (b : Book) : Bool :=
  b.title != "" && b.author != "" && b.year != 0

/-! ### Auth data model — `auth/model.go` -/

/-- The `User`: unique username and email, bcrypt-hashed password, role,
soft-delete marker; timestamps omitted. -/
structure User where
  id : Nat
  username : String
  password : String
  email : String
  role : String
  deleted : Bool
deriving DecidableEq

/-- The users table plus its autoincrement counter. -/
structure AuthDB where
  users : List User
  nextId : Nat
deriving DecidableEq

/-- The sentinel errors of `auth/service.go`: `ErrUserExists` and
`ErrInvalidCredentials`. -/
inductive AuthErr where
  | userExists
  | invalidCredentials
deriving DecidableEq

/-- The `db.DB.Where("username = ?", u).First(&user)` over live rows. -/
def firstUserByUsername (s : AuthDB) (u : String) : Option User :=
  s.users.find? (fun x => x.username == u && !x.deleted)

/-- The `db.DB.Where("username = ? OR email = ?", u, e).First(&existingUser)`
over live rows. -/
def firstUserByUsernameOrEmail (s : AuthDB) (u e : String) : Option User :=
  s.users.find? (fun x => (x.username == u || x.email == e) && !x.deleted)

/-! ### Auth service — `RegisterUser`, `AuthenticateUser`, `GenerateJWT` -/

/-- The `RegisterUser`: reject when a live row matches the username or email,
else hash the password with bcrypt (`bhash`, the external collaborator) and
insert with role `user`.  Note: no validation of the `RegisterRequest`
constraints happens here or in the handler. -/
def RegisterUser (bhash : String → String) (s : AuthDB)
    (username password email : String) : Except AuthErr AuthDB :=
  match firstUserByUsernameOrEmail s username email with
  | some _ => .error .userExists
  | none =>
    .ok { users := s.users ++
            [{ id := s.nextId, username := username, password := bhash password,
               email := email, role := "user", deleted := false }],
          nextId := s.nextId + 1 }

/-- The `AuthenticateUser`: look up by username — failure collapses to
`ErrInvalidCredentials`; then `bcrypt.CompareHashAndPassword` (the external
predicate `bcompare hash plain`) — mismatch collapses to the same
`ErrInvalidCredentials`. -/
def AuthenticateUser (bcompare : String → String → Bool) (s : AuthDB)
    (username password : String) : Except AuthErr User :=
  match firstUserByUsername s username with
  | none => .error .invalidCredentials
  | some u => if bcompare u.password password then .ok u else .error .invalidCredentials

/-- The signed token as `GenerateJWT` builds it: the symmetric signing key
actually used, and the claims `sub`, `username`, `role`, `exp`. -/
structure JwtToken where
  secret : String
  sub : Nat
  username : String
  role : String
  exp : Nat
deriving DecidableEq

/-- The `GenerateJWT`: read `JWT_SECRET` from the environment (`envSecret`),
fall back to the hardcoded `"supersecret"` when it is empty; sign HS256 with
that key over claims `sub = user.ID`, `username`, `role`, and
`exp = now + 24h` (seconds). -/
def GenerateJWT (envSecret : String) (now : Nat) (u : User) : JwtToken :=
  let secret := if envSecret == "" then "supersecret" else envSecret
  { secret := secret, sub := u.id, username := u.username, role := u.role,
    exp := now + 24 * 60 * 60 }

/-! ### Auth HTTP handlers — `auth/handler.go` -/

/-- The `LoginRequest` as parsed from the body. -/
structure LoginRequest where
  username : String
  password : String
deriving DecidableEq

/-- The `RegisterRequest` as parsed from the body, with its declared (but never
enforced) `validate` tags: username required, password required with
`min=6`, email well-formed. -/
structure RegisterRequest where
  username : String
  password : String
  email : String
deriving DecidableEq

/-- Outcome of `Login`: 401/500-style failure with its message, or the 200
payload carrying the token and the public user fields. -/
inductive LoginResult where
  | fail (status : Nat) (msg : String)
  | success (token : JwtToken) (id : Nat) (username email role : String)
deriving DecidableEq

/-- The `Login` handler: parse (assumed successful), `AuthenticateUser`; every
authentication error is answered `401 Invalid credentials`; on success
issue the JWT and return it with the user's public fields. -/
def Login (bcompare : String → String → Bool) (envSecret : String) (now : Nat)
    (s : AuthDB) (req : LoginRequest) : LoginResult :=
  match AuthenticateUser bcompare s req.username req.password with
  | .error _ => .fail 401 "Invalid credentials"
  | .ok user =>
    .success (GenerateJWT envSecret now user) user.id user.username user.email user.role

/-- Outcome of `Register`: status, message, users table after the call. -/
structure RegResult where
  status : Nat
  msg : String
  db : AuthDB
deriving DecidableEq

/-- The `Register` handler: parse (assumed successful) and call `RegisterUser`
directly — the `validate` tags of `RegisterRequest` are never checked; any
service error is a 400 with the error's text, success a 201. -/
def Register (bhash : String → String) (s : AuthDB) (req : RegisterRequest) : RegResult :=
  match RegisterUser bhash s req.username req.password req.email with
  | .error .userExists => ⟨400, "user already exists", s⟩
  | .error .invalidCredentials => ⟨400, "invalid credentials", s⟩
  | .ok s2 => ⟨201, "User created successfully", s2⟩

/-- Minimal well-formedness of an email per the `validate:"email"` tag:
it contains an `@`.  (The real validator is stricter; containing no `@`
fails it in any case.) -/
def emailHasAt (e : String) : Bool :=
  e.toList.contains (Char.ofNat 64)

/-- The constraints declared on `RegisterRequest` by its `validate` tags:
username and password required, password at least 6 characters, email
well-formed. -/
def registerDeclaredValid (r : RegisterRequest) : Bool :=
  r.username != "" && r.password != "" && decide (6 ≤ r.password.length) && emailHasAt r.email

/-! ### Concrete states used to evaluate the development -/

/-- A fresh store with no rows. -/
def emptyDB : DBState := ⟨[], 1⟩

/-- The spec's running example book. -/
def demoBook : Book := ⟨1, "1984", "George Orwell", 1949, "", "", false⟩

/-- A store holding only `demoBook`. -/
def demoDB : DBState := ⟨[demoBook], 2⟩

/-- A draft with every required field zero-valued. -/
def blankDraft : Book := ⟨0, "", "", 0, "", "", false⟩

/-- A valid draft (id unset). -/
def demoDraft : Book := ⟨0, "Dune", "Frank Herbert", 1965, "", "", false⟩

/-- One registered user. -/
def aliceUser : User := ⟨1, "alice", "hash1", "alice@example.com", "user", false⟩

/-- A users table holding only `aliceUser`. -/
def demoAuthDB : AuthDB := ⟨[aliceUser], 2⟩

/-! ## Helper lemmas -/

/-- A key just deleted from a live cache does not resolve. -/
theorem cacheLookup_deleteKey_self (c : Cache) (k : String) :
    cacheLookup (cacheDeleteKey true c k) k = none := by
  unfold cacheDeleteKey cacheLookup
  rw [if_pos rfl]
  have h : (c.filter (fun e => e.1 != k)).find? (fun e => e.1 == k) = none := by
    rw [List.find?_eq_none]
    intro x hx
    rw [List.mem_filter] at hx
    simp only [bne_iff_ne, ne_eq] at hx
    simp only [beq_iff_eq]
    exact hx.2
  rw [h]
  rfl

/-- Deleting one cache key leaves every other key's binding unchanged. -/
theorem cacheLookup_deleteKey_other (c : Cache) (k k2 : String) (h : k2 ≠ k) :
    cacheLookup (cacheDeleteKey true c k) k2 = cacheLookup c k2 := by
  unfold cacheDeleteKey cacheLookup
  rw [if_pos rfl]
  congr 1
  induction c with
  | nil => rfl
  | cons e t ih =>
    by_cases he : e.1 = k
    · have hek : (e.1 != k) = false := by simp [he]
      have he2 : (e.1 == k2) = false := by
        simp only [beq_eq_false_iff_ne, ne_eq, he]
        exact fun hc => h hc.symm
      simp [List.filter_cons, List.find?_cons, hek, he2, ih]
    · have hek : (e.1 != k) = true := by simp [he]
      by_cases he2 : (e.1 == k2) = true
      · simp [List.filter_cons, List.find?_cons, hek, he2]
      · have he2f : (e.1 == k2) = false := by simpa using he2
        simp [List.filter_cons, List.find?_cons, hek, he2f, ih]

/-- After `DeleteBook` marks the matching live rows deleted, no live row
with that id remains. -/
theorem find?_softDelete_none (id : Nat) (l : List Book) :
    (l.map (fun b => if b.id == id && !b.deleted then { b with deleted := true } else b)).find?
      (fun b => b.id == id && !b.deleted) = none := by
  rw [List.find?_eq_none]
  intro x hx
  rw [List.mem_map] at hx
  obtain ⟨b, _, rfl⟩ := hx
  by_cases hb : (b.id == id && !b.deleted) = true
  · rw [if_pos hb]
    simp
  · rw [if_neg hb]
    simpa using hb

/-- Writing the merged row back under the stored row's primary key makes it
the row that `First` finds. -/
theorem find?_map_replace_book (id : Nat) (m : Book)
    (hm : (m.id == id && !m.deleted) = true) :
    ∀ (l : List Book) (a : Book),
      l.find? (fun b => b.id == id && !b.deleted) = some a →
        (l.map (fun b => if b.id == id && !b.deleted then m else b)).find?
          (fun b => b.id == id && !b.deleted) = some m := by
  intro l
  induction l with
  | nil =>
    intro a ha
    simp [List.find?] at ha
  | cons h t ih =>
    intro a ha
    by_cases hp : (h.id == id && !h.deleted) = true
    · rw [List.map_cons, if_pos hp]
      simp only [List.find?_cons, hm]
    · have hpf : (h.id == id && !h.deleted) = false := by simpa using hp
      simp only [List.find?_cons, hpf] at ha
      rw [List.map_cons, if_neg hp]
      simp only [List.find?_cons, hpf]
      exact ih a ha

/-- On a cache miss or cache failure, the list read is answered from the
store: 500 under an outage, else 200 with the store's rows. -/
theorem getBooks_miss_response (up fault : Bool) (s : DBState) (c : Cache) (q : String)
    (h : cacheGetBooks up c (listCacheKey q) = none) :
    (GetBooks up fault s c q).status = (if fault then 500 else 200) ∧
    (GetBooks up fault s c q).body =
      (if fault then .errMsg "Failed to fetch books"
       else .books (if q == "" then dbFind s else dbSearch s q)) := by
  cases fault <;> by_cases hq : (q == "") = true <;>
    simp [GetBooks, GetAllBooks, SearchBooks, h, hq]

/-- On a cache miss or cache failure, the single read is exactly the
store-backed branch of the handler. -/
theorem getBook_miss_eq (up fault : Bool) (s : DBState) (c : Cache) (id : Nat)
    (h : cacheGetBook up c (bookCacheKey id) = none) :
    GetBook up fault s c id =
      (match GetBookByID fault s id with
       | .error _ => ⟨404, .errMsg "Book not found", s, c⟩
       | .ok b => ⟨200, .book b, s, cacheSet up c (bookCacheKey id) (.one b)⟩) := by
  simp [GetBook, h]

/-- Search-keyed cache entries live under a key distinct from `books:all`. -/
theorem searchKey_ne_all (q : String) (hq : q ≠ "") : listCacheKey q ≠ "books:all" := by
  unfold listCacheKey
  rw [if_neg (by simpa using hq)]
  intro hcontra
  have hlen := congrArg String.length hcontra
  rw [String.length_append] at hlen
  have h13 : ("books:search:" : String).length = 13 := rfl
  have h9 : ("books:all" : String).length = 9 := rfl
  rw [h13, h9] at hlen
  omega

/-! ## Claims -/

/-- C1.  The claim says a create whose draft misses a required field
(title, author, or year absent or zero-valued) is rejected as invalid input
and persists nothing.  The code has no such check: `AddBookHandler` passes
the parsed body straight to `CreateBook`, which inserts it — the
`validate:"required"` tags on the model are never enforced.  Evaluating the
handler on the all-zero draft: it answers 201 and persists the row. -/
theorem c1_create_persists_invalid_draft :
    hasRequiredBookFields blankDraft = false ∧
    (AddBookHandler true false emptyDB [] blankDraft).status = 201 ∧
    (AddBookHandler true false emptyDB [] blankDraft).status ≠ 400 ∧
    (AddBookHandler true false emptyDB [] blankDraft).db.books =
      [{ blankDraft with id := 1 }] ∧
    (AddBookHandler true false emptyDB [] blankDraft).body =
      .book { blankDraft with id := 1 } := by
  decide

/-- C3.  The claim says `delete(id)` of a non-existent book fails with the
404 not-found signal.  In the code `DeleteBook` runs
`db.DB.Delete(&Book{}, id)`, and GORM reports no error when zero rows
match, so the handler answers 204 success for an id with no live row. -/
theorem c3_delete_missing_id_reports_success :
    dbFirst emptyDB 999 = none ∧
    (DeleteBookHandler true false emptyDB [] 999).status = 204 ∧
    (DeleteBookHandler true false emptyDB [] 999).status ≠ 404 := by
  decide

/-- C6.  Login with a nonexistent username and login with a wrong password
for an existing user produce the one identical generic response
`401 Invalid credentials`: no user enumeration. -/
theorem c6_login_generic_invalid_credentials
    (bcompare : String → String → Bool) (envSecret : String) (now : Nat) (s : AuthDB)
    (u1 p1 u2 p2 : String) (usr : User)
    (h1 : firstUserByUsername s u1 = none)
    (h2 : firstUserByUsername s u2 = some usr)
    (h3 : bcompare usr.password p2 = false) :
    Login bcompare envSecret now s ⟨u1, p1⟩ = .fail 401 "Invalid credentials" ∧
    Login bcompare envSecret now s ⟨u2, p2⟩ =
      Login bcompare envSecret now s ⟨u1, p1⟩ := by
  unfold Login AuthenticateUser
  simp [h1, h2, h3]

/-- Witness for C6: the one-user table, a missing username, and a wrong
password for `alice` yield the same 401 response. -/
theorem c6_login_generic_invalid_credentials_witness :
    Login (fun hs p => hs == p) "" 0 demoAuthDB ⟨"bob", "x"⟩ =
      .fail 401 "Invalid credentials" ∧
    Login (fun hs p => hs == p) "" 0 demoAuthDB ⟨"alice", "wrong"⟩ =
      Login (fun hs p => hs == p) "" 0 demoAuthDB ⟨"bob", "x"⟩ :=
  c6_login_generic_invalid_credentials (fun hs p => hs == p) "" 0 demoAuthDB
    "bob" "x" "alice" "wrong" aliceUser (by decide) (by decide) (by decide)

/-- C9.  `GenerateJWT` signs with the `JWT_SECRET` environment value, or
with the hardcoded `"supersecret"` when that value is empty; the token
carries `sub = user.ID`, the username, the role, and a 24-hour expiry. -/
theorem c9_jwt_secret_fallback_and_claims (envSecret : String) (now : Nat) (u : User) :
    (envSecret = "" → (GenerateJWT envSecret now u).secret = "supersecret") ∧
    (envSecret ≠ "" → (GenerateJWT envSecret now u).secret = envSecret) ∧
    (GenerateJWT envSecret now u).sub = u.id ∧
    (GenerateJWT envSecret now u).username = u.username ∧
    (GenerateJWT envSecret now u).role = u.role ∧
    (GenerateJWT envSecret now u).exp = now + 24 * 60 * 60 := by
  unfold GenerateJWT
  refine ⟨?_, ?_, rfl, rfl, rfl, rfl⟩ <;> intro h <;> simp [h]

/-- Witness for C9: with the variable empty the key is `"supersecret"`,
with it set the key is its value. -/
theorem c9_jwt_secret_fallback_and_claims_witness :
    (GenerateJWT "" 0 aliceUser).secret = "supersecret" ∧
    (GenerateJWT "envkey" 0 aliceUser).secret = "envkey" :=
  ⟨(c9_jwt_secret_fallback_and_claims "" 0 aliceUser).1 rfl,
   (c9_jwt_secret_fallback_and_claims "envkey" 0 aliceUser).2.1 (by decide)⟩

/-- C2.  `update(id, partial)` on a stored row succeeds and the persisted
row overwrites exactly the fields that are non-zero-valued in the payload;
each absent / zero-valued field keeps the prior stored value, and the
identity and soft-delete marker are untouched. -/
theorem c2_update_overwrites_only_nonzero_fields
    (s : DBState) (id : Nat) (payload stored : Book)
    (h : dbFirst s id = some stored) :
    ∃ s2 merged, UpdateBook false s id payload = .ok (s2, merged) ∧
      (payload.title = "" → merged.title = stored.title) ∧
      (payload.title ≠ "" → merged.title = payload.title) ∧
      (payload.author = "" → merged.author = stored.author) ∧
      (payload.author ≠ "" → merged.author = payload.author) ∧
      (payload.year = 0 → merged.year = stored.year) ∧
      (payload.year ≠ 0 → merged.year = payload.year) ∧
      (payload.genre = "" → merged.genre = stored.genre) ∧
      (payload.genre ≠ "" → merged.genre = payload.genre) ∧
      (payload.isbn = "" → merged.isbn = stored.isbn) ∧
      (payload.isbn ≠ "" → merged.isbn = payload.isbn) ∧
      merged.id = stored.id ∧ merged.deleted = stored.deleted ∧
      dbFirst s2 id = some merged := by
  have hfind : s.books.find? (fun b => b.id == id && !b.deleted) = some stored := h
  have hps := List.find?_some hfind
  have hm : ((mergeNonZero stored payload).id == id &&
      !(mergeNonZero stored payload).deleted) = true := by
    simpa [mergeNonZero] using hps
  refine ⟨⟨s.books.map
            (fun b => if b.id == id && !b.deleted then mergeNonZero stored payload else b),
           s.nextId⟩,
          mergeNonZero stored payload, ?_,
          fun hz => by simp [mergeNonZero, hz], fun hz => by simp [mergeNonZero, hz],
          fun hz => by simp [mergeNonZero, hz], fun hz => by simp [mergeNonZero, hz],
          fun hz => by simp [mergeNonZero, hz], fun hz => by simp [mergeNonZero, hz],
          fun hz => by simp [mergeNonZero, hz], fun hz => by simp [mergeNonZero, hz],
          fun hz => by simp [mergeNonZero, hz], fun hz => by simp [mergeNonZero, hz],
          rfl, rfl, ?_⟩
  · simp [UpdateBook, h]
  · exact find?_map_replace_book id _ hm s.books stored hfind

/-- Witness for C2: updating `demoBook` with a payload carrying only a new
title keeps the stored author and year. -/
theorem c2_update_overwrites_only_nonzero_fields_witness :
    ∃ s2 merged,
      UpdateBook false demoDB 1 ⟨0, "Animal Farm", "", 0, "", "", false⟩ = .ok (s2, merged) ∧
      merged.title = "Animal Farm" ∧ merged.author = "George Orwell" ∧ merged.year = 1949 := by
  obtain ⟨s2, merged, hEq, _, ht, ha, _, hy, _, _, _, _, _, _, _, _⟩ :=
    c2_update_overwrites_only_nonzero_fields demoDB 1
      ⟨0, "Animal Farm", "", 0, "", "", false⟩ demoBook (by decide)
  exact ⟨s2, merged, hEq, ht (by decide), ha rfl, hy rfl⟩

/-- C10.  Registration never checks the declared `validate` constraints of
`RegisterRequest`: with an empty password (violating `required,min=6`) and
any email whatsoever, a request for a fresh username is hashed and
persisted and answered 201 rather than being rejected as invalid input. -/
theorem c10_register_skips_declared_validation
    (bhash : String → String) (s : AuthDB) (u e : String)
    (h : firstUserByUsernameOrEmail s u e = none) :
    registerDeclaredValid ⟨u, "", e⟩ = false ∧
    (Register bhash s ⟨u, "", e⟩).status = 201 ∧
    (Register bhash s ⟨u, "", e⟩).db.users =
      s.users ++ [⟨s.nextId, u, bhash "", e, "user", false⟩] := by
  refine ⟨?_, ?_, ?_⟩
  · simp [registerDeclaredValid]
  · simp [Register, RegisterUser, h]
  · simp [Register, RegisterUser, h]

/-- C4 counterexample.  The claim says a persistent-store failure on a read
is surfaced as a 500 and never conflated with absence.  On the single-book
read, a store outage (`fault = true`) is answered with the very same
`404 Book not found` response as an absent id — not a 500. -/
theorem c4_counterexample_get_conflates_store_failure :
    (GetBook true true emptyDB [] 7).status = 404 ∧
    (GetBook true true emptyDB [] 7).status ≠ 500 ∧
    GetBook true true emptyDB [] 7 = GetBook true false emptyDB [] 7 := by
  decide

/-- C4 amended.  On the list read a persistent-store failure is surfaced as
a 500; on the single read, a store failure and absence of the id are both
surfaced as the identical `404 Book not found` response — the get path
conflates the two. -/
theorem c4_amended_read_failure_semantics
    (up : Bool) (s sAbsent : DBState) (c cAbsent : Cache) (q : String) (id : Nat)
    (hl : cacheGetBooks up c (listCacheKey q) = none)
    (hg : cacheGetBook up c (bookCacheKey id) = none)
    (hga : cacheGetBook up cAbsent (bookCacheKey id) = none)
    (habs : dbFirst sAbsent id = none) :
    (GetBooks up true s c q).status = 500 ∧
    (GetBook up true s c id).status = 404 ∧
    (GetBook up true s c id).body = .errMsg "Book not found" ∧
    (GetBook up false sAbsent cAbsent id).status = 404 ∧
    (GetBook up true s c id).body = (GetBook up false sAbsent cAbsent id).body := by
  have g1 := getBooks_miss_response up true s c q hl
  have b1 := getBook_miss_eq up true s c id hg
  have b2 := getBook_miss_eq up false sAbsent cAbsent id hga
  refine ⟨by simpa using g1.1,
          by rw [b1]; simp [GetBookByID],
          by rw [b1]; simp [GetBookByID],
          by rw [b2]; simp [GetBookByID, habs],
          by rw [b1, b2]; simp [GetBookByID, habs]⟩

/-- Witness for C4 (amended): a store outage over the one-book store gives
500 on list, and on get the same 404 body as reading a missing id from the
healthy empty store. -/
theorem c4_amended_read_failure_semantics_witness :
    (GetBooks true true demoDB [] "").status = 500 ∧
    (GetBook true true demoDB [] 1).status = 404 ∧
    (GetBook true true demoDB [] 1).body = .errMsg "Book not found" ∧
    (GetBook true false emptyDB [] 1).status = 404 ∧
    (GetBook true true demoDB [] 1).body = (GetBook true false emptyDB [] 1).body :=
  c4_amended_read_failure_semantics true demoDB emptyDB [] [] "" 1
    (by decide) (by decide) (by decide) (by decide)

/-- C5.  When the cache cannot serve the read — the collaborator is down or
the key is missing — the read falls through to the store and the response
(status and body) is identical no matter which cache state or cache health
produced the fallthrough; with the store healthy the fallthrough list read
answers 200 with the store rows, and the single read never turns a cache
problem into a 500. -/
theorem c5_cache_failure_immaterial_to_response
    (up1 up2 fault : Bool) (s : DBState) (c1 c2 : Cache) (q : String) (id : Nat)
    (hl1 : cacheGetBooks up1 c1 (listCacheKey q) = none)
    (hl2 : cacheGetBooks up2 c2 (listCacheKey q) = none)
    (hg1 : cacheGetBook up1 c1 (bookCacheKey id) = none)
    (hg2 : cacheGetBook up2 c2 (bookCacheKey id) = none) :
    ((GetBooks up1 fault s c1 q).status = (GetBooks up2 fault s c2 q).status ∧
     (GetBooks up1 fault s c1 q).body = (GetBooks up2 fault s c2 q).body) ∧
    ((GetBook up1 fault s c1 id).status = (GetBook up2 fault s c2 id).status ∧
     (GetBook up1 fault s c1 id).body = (GetBook up2 fault s c2 id).body) ∧
    (fault = false →
      (GetBooks up1 fault s c1 q).status = 200 ∧
      (GetBooks up1 fault s c1 q).body =
        .books (if q == "" then dbFind s else dbSearch s q) ∧
      (GetBook up1 fault s c1 id).status ≠ 500) := by
  have g1 := getBooks_miss_response up1 fault s c1 q hl1
  have g2 := getBooks_miss_response up2 fault s c2 q hl2
  have b1 := getBook_miss_eq up1 fault s c1 id hg1
  have b2 := getBook_miss_eq up2 fault s c2 id hg2
  refine ⟨⟨g1.1.trans g2.1.symm, g1.2.trans g2.2.symm⟩, ?_, ?_⟩
  · rw [b1, b2]
    cases hr : GetBookByID fault s id <;> simp
  · intro hf
    subst hf
    refine ⟨by simpa using g1.1, by simpa using g1.2, ?_⟩
    rw [b1]
    cases hr : GetBookByID false s id <;> simp

/-- Witness for C5: a downed cache still holding a stale empty snapshot and
a healthy empty cache give the same response over the one-book store. -/
theorem c5_cache_failure_immaterial_to_response_witness :
    (GetBooks false false demoDB [("books:all", CVal.many [])] "").body =
      (GetBooks true false demoDB [] "").body ∧
    (GetBook false false demoDB [("books:all", CVal.many [])] 1).status =
      (GetBook true false demoDB [] 1).status := by
  obtain ⟨⟨_, hb⟩, ⟨hs, _⟩, _⟩ :=
    c5_cache_failure_immaterial_to_response false true false demoDB
      [("books:all", CVal.many [])] [] "" 1 (by decide) (by decide) (by decide) (by decide)
  exact ⟨hb, hs⟩

/-- Witness for C10: empty password and a malformed email are stored for a
fresh username. -/
theorem c10_register_skips_declared_validation_witness :
    registerDeclaredValid ⟨"bob", "", "not-an-email"⟩ = false ∧
    (Register (fun p => p ++ "#h") ⟨[], 1⟩ ⟨"bob", "", "not-an-email"⟩).status = 201 ∧
    (Register (fun p => p ++ "#h") ⟨[], 1⟩ ⟨"bob", "", "not-an-email"⟩).db.users =
      ([] : List User) ++ [⟨1, "bob", (fun p => p ++ "#h") "", "not-an-email", "user", false⟩] :=
  c10_register_skips_declared_validation (fun p => p ++ "#h") ⟨[], 1⟩ "bob" "not-an-email"
    (by decide)

/-- C7.  After every successful create the `books:all` entry is gone from
the cache while search-keyed entries are untouched, so a subsequent
`list()` with no search term cannot hit a cached pre-creation snapshot: it
answers 200 with the store's current rows, which contain the created
book. -/
theorem c7_create_invalidates_books_all
    (s : DBState) (c : Cache) (draft : Book) (hd : draft.deleted = false) :
    (AddBookHandler true false s c draft).status = 201 ∧
    cacheLookup (AddBookHandler true false s c draft).cache "books:all" = none ∧
    (∀ q, q ≠ "" →
      cacheLookup (AddBookHandler true false s c draft).cache (listCacheKey q) =
        cacheLookup c (listCacheKey q)) ∧
    (GetBooks true false (AddBookHandler true false s c draft).db
        (AddBookHandler true false s c draft).cache "").status = 200 ∧
    (GetBooks true false (AddBookHandler true false s c draft).db
        (AddBookHandler true false s c draft).cache "").body =
      .books (dbFind (AddBookHandler true false s c draft).db) ∧
    (∃ b1, (AddBookHandler true false s c draft).body = .book b1 ∧
      b1 ∈ dbFind (AddBookHandler true false s c draft).db) := by
  have hA : AddBookHandler true false s c draft =
      ⟨201, .book { draft with id := if draft.id == 0 then s.nextId else draft.id },
        ⟨s.books ++ [{ draft with id := if draft.id == 0 then s.nextId else draft.id }],
         max s.nextId ((if draft.id == 0 then s.nextId else draft.id) + 1)⟩,
        cacheDeleteKey true c "books:all"⟩ := rfl
  rw [hA]
  have hmiss : cacheGetBooks true (cacheDeleteKey true c "books:all") (listCacheKey "") = none := by
    have hsl := cacheLookup_deleteKey_self c "books:all"
    simp [cacheGetBooks, cacheGet, listCacheKey, hsl]
  have g := getBooks_miss_response true false
      ⟨s.books ++ [{ draft with id := if draft.id == 0 then s.nextId else draft.id }],
       max s.nextId ((if draft.id == 0 then s.nextId else draft.id) + 1)⟩
      (cacheDeleteKey true c "books:all") "" hmiss
  refine ⟨rfl, cacheLookup_deleteKey_self c "books:all",
          fun q hq => cacheLookup_deleteKey_other c "books:all" (listCacheKey q)
            (searchKey_ne_all q hq),
          by simpa using g.1, by simpa using g.2, ?_⟩
  refine ⟨{ draft with id := if draft.id == 0 then s.nextId else draft.id }, rfl, ?_⟩
  rw [dbFind, List.mem_filter]
  exact ⟨List.mem_append_right _ (List.mem_singleton.mpr rfl), by simp [hd]⟩

/-- Witness for C7: creating `demoDraft` over a cache holding stale
`books:all` and `books:search:or` snapshots clears exactly `books:all`. -/
theorem c7_create_invalidates_books_all_witness :
    (AddBookHandler true false emptyDB
        [("books:all", CVal.many []), ("books:search:or", CVal.many [])] demoDraft).status = 201 ∧
    cacheLookup (AddBookHandler true false emptyDB
        [("books:all", CVal.many []), ("books:search:or", CVal.many [])] demoDraft).cache
      "books:all" = none ∧
    cacheLookup (AddBookHandler true false emptyDB
        [("books:all", CVal.many []), ("books:search:or", CVal.many [])] demoDraft).cache
      (listCacheKey "or") = some (CVal.many []) := by
  obtain ⟨h1, h2, h3, _, _, _⟩ := c7_create_invalidates_books_all emptyDB
    [("books:all", CVal.many []), ("books:search:or", CVal.many [])] demoDraft rfl
  refine ⟨h1, h2, ?_⟩
  rw [h3 "or" (by decide)]
  decide

/-- C8.  `delete(id)` followed by `get(id)` yields the `404 Book not found`
signal in every store state, every cache state, and for every id: the
delete clears the `book:<id>` cache entry and leaves no live row with that
id, so the subsequent get misses the cache and the store lookup fails. -/
theorem c8_delete_then_get_not_found (s : DBState) (c : Cache) (id : Nat) :
    (GetBook true false (DeleteBookHandler true false s c id).db
        (DeleteBookHandler true false s c id).cache id).status = 404 ∧
    (GetBook true false (DeleteBookHandler true false s c id).db
        (DeleteBookHandler true false s c id).cache id).body = .errMsg "Book not found" := by
  have hD : DeleteBookHandler true false s c id =
      ⟨204, .empty,
        ⟨s.books.map (fun b => if b.id == id && !b.deleted then { b with deleted := true } else b),
         s.nextId⟩,
        cacheDeleteKey true (cacheDeleteKey true c "books:all") (bookCacheKey id)⟩ := rfl
  rw [hD]
  have hmiss : cacheGetBook true
      (cacheDeleteKey true (cacheDeleteKey true c "books:all") (bookCacheKey id))
      (bookCacheKey id) = none := by
    have hsl := cacheLookup_deleteKey_self (cacheDeleteKey true c "books:all") (bookCacheKey id)
    simp [cacheGetBook, cacheGet, hsl]
  rw [getBook_miss_eq true false _ _ id hmiss]
  have hnone := find?_softDelete_none id s.books
  simp only [GetBookByID, dbFirst, hnone]
  simp

end GoBookLibrary
